import Mathlib

/-!
Verification of the indexing-and-retrieval pipeline of a RAG chatbot.

Shallow embedding of the Python sources:
- documents/services/chunking_service.py  (ChunkingService)
- documents/services/embedding.py         (EmbeddingService)
- documents/services/indexing.py          (DocumentIndexingService)
- rag/services/access_control.py          (get_user_allowed_security_levels)
- rag/services/llm_service.py             (LLMService)
- rag/services/rag_query_service.py       (RAGQueryService)

Python strings are modelled as `List Char`; machine floats appearing only as
opaque similarity scores and embedding coordinates are modelled as `ℚ`.
External fallible collaborators (the object store, the ONNX / HuggingFace
model calls, the database writes that the code itself guards with try/except)
are modelled as explicit `Except`/`Bool` oracle parameters, so every
definition is a total, executable function of its inputs and oracles.
-/

namespace RagChatbot

/-- Whitespace class used by Python `str.strip`, `str.split` and the regex
`\s` (space, tab, newline, carriage return, vertical tab, form feed). -/
def isPyWS (c : Char) : Bool :=
  c = ' ' || c = '\t' || c = '\n' || c = '\r' || c = '\x0b' || c = '\x0c'

/-- Python `str.strip()`: remove leading and trailing whitespace. -/
def stripChars (l : List Char) : List Char :=
  ((l.dropWhile isPyWS).reverse.dropWhile isPyWS).reverse

/-- One step of the regex substitution `re.sub(r"\s+", " ", text)`:
every maximal run of whitespace characters is replaced by a single space. -/
def collapseWS : List Char → List Char
  | [] => []
  | [c] => if isPyWS c then [' '] else [c]
  | c :: c' :: t =>
    if isPyWS c then
      if isPyWS c' then collapseWS (c' :: t)
      else ' ' :: collapseWS (c' :: t)
    else c :: collapseWS (c' :: t)

/-- Embeds `ChunkingService._clean_text` (chunking_service.py:110-123):
`re.sub(r"\s+", " ", text).strip()`. -/
def clean_text (text : List Char) : List Char :=
  stripChars (collapseWS text)

/-- Python `sep.join(parts)`. -/
def joinSep (sep : List Char) : List (List Char) → List Char
  | [] => []
  | [p] => p
  | p :: p' :: ps => p ++ sep ++ joinSep sep (p' :: ps)

/-- Number of maximal non-whitespace runs: Python `len(s.split())`.
The Boolean argument records whether the previous character was inside
a word. -/
def count_words_aux : Bool → List Char → Nat
  | _, [] => 0
  | inWord, c :: t =>
    if isPyWS c then count_words_aux false t
    else (if inWord then 0 else 1) + count_words_aux true t

/-- Python `len(s.split())`, the approximate token count used throughout. -/
def count_words (l : List Char) : Nat := count_words_aux false l

/-- The `ChunkingService` instance after `__init__` (chunking_service.py:44-52):
it carries the resolved `chunk_size` and `chunk_overlap`. -/
structure ChunkingService where
  chunk_size : Nat
  chunk_overlap : Nat
deriving DecidableEq, Repr

/-- Python truthiness fallback `value or default` for an `Optional[int]`
argument: `None` and `0` are both falsy and select the default. -/
def orDefault (value : Option Nat) (dflt : Nat) : Nat :=
  match value with
  | none => dflt
  | some n => if n = 0 then dflt else n

/-- Embeds `ChunkingService.__init__` (chunking_service.py:44-52): resolve the two
parameters with truthiness fallback against the settings defaults, then
raise `ValueError` when `chunk_overlap >= chunk_size`. -/
def chunking_service_init (chunk_size chunk_overlap : Option Nat)
    (settings_chunk_size settings_chunk_overlap : Nat) :
    Except String ChunkingService :=
  let size := orDefault chunk_size settings_chunk_size
  let overlap := orDefault chunk_overlap settings_chunk_overlap
  if size ≤ overlap then
    .error "chunk_overlap must be smaller than chunk_size."
  else
    .ok ⟨size, overlap⟩

/-- The raw character windows of the while loop in `ChunkingService.chunk_text`
(chunking_service.py:88-93), before each window is stripped: starting from the
whole text, emit `take size` and recurse on `drop stride` while the remaining
suffix is non-empty (`start < text_length`).  The fuel argument makes the
recursion structural; `fuel = length` is always enough because the stride is
positive. -/
def chunk_windows (size stride : Nat) : Nat → List Char → List (List Char)
  | 0, _ => []
  | _ + 1, [] => []
  | fuel + 1, c :: t => (c :: t).take size :: chunk_windows size stride fuel ((c :: t).drop stride)

/-- The window list of `chunk_text` on a given (already cleaned) text. -/
def raw_windows (size stride : Nat) (l : List Char) : List (List Char) :=
  chunk_windows size stride l.length l

/-- Embeds `ChunkingService.chunk_text` (chunking_service.py:63-104): return `[]` on
empty or all-whitespace input, otherwise clean the text, slide a window of
`chunk_size` characters forward by `chunk_size - chunk_overlap`, strip each
window and drop windows that are empty after stripping. -/
def chunk_text (svc : ChunkingService) (text : List Char) : List (List Char) :=
  if text.isEmpty || (stripChars text).isEmpty then []
  else
    let t := clean_text text
    ((raw_windows svc.chunk_size (svc.chunk_size - svc.chunk_overlap) t).map stripChars).filter
      (fun c => !c.isEmpty)

/-- Concatenation of consecutive windows with the overlap region removed:
the first window in full, every later window without its first `overlap`
characters.  This is the reconstruction operator of the spec sentence
"concatenating consecutive windows non-overlapping regions reconstructs the
normalized source text". -/
def recon (overlap : Nat) : List (List Char) → List Char
  | [] => []
  | w :: ws => w ++ (ws.map (List.drop overlap)).flatten

/-- Embeds `Document.SecurityLevel` (documents/models.py:9-13), ordered
LOW < MID < HIGH < VERY_HIGH. -/
inductive SecurityLevel
  | LOW
  | MID
  | HIGH
  | VERY_HIGH
deriving DecidableEq, Repr

/-- Position of a security level in the LOW < MID < HIGH < VERY_HIGH order. -/
def SecurityLevel.rank : SecurityLevel → Nat
  | .LOW => 0
  | .MID => 1
  | .HIGH => 2
  | .VERY_HIGH => 3

/-- The `ROLE_TO_MAX_LEVEL` dictionary (access_control.py:70-76), keyed by the
string values of `User.Role` (users/models.py:23-28); `.get` on a role absent
from the table yields `none`. -/
def role_to_max_level (role : String) : Option SecurityLevel :=
  if role = "GUEST" then some .LOW
  else if role = "EMPLOYEE" then some .MID
  else if role = "MANAGER" then some .HIGH
  else if role = "CEO" then some .VERY_HIGH
  else if role = "VICE_PRESIDENT" then some .VERY_HIGH
  else none

/-- The `SECURITY_LEVEL_ACCESS` dictionary (access_control.py:79-98): each
maximum level maps to the cumulative list of levels at or below it. -/
def security_level_access : SecurityLevel → List SecurityLevel
  | .LOW => [.LOW]
  | .MID => [.LOW, .MID]
  | .HIGH => [.LOW, .MID, .HIGH]
  | .VERY_HIGH => [.LOW, .MID, .HIGH, .VERY_HIGH]

/-- Embeds `get_user_allowed_security_levels` (access_control.py:39-127).  A user is
represented by its `role` string; `none` is an unauthenticated request.  An
unknown role falls back to LOW (`ROLE_TO_MAX_LEVEL.get` returning `None`),
and the allowed list is looked up in `SECURITY_LEVEL_ACCESS` (total on the
four levels, so the `[LOW]` dictionary default is never taken). -/
def get_user_allowed_security_levels (user : Option String) :
    List SecurityLevel × SecurityLevel :=
  match user with
  | none => ([.LOW], .LOW)
  | some role =>
    let effective_max :=
      match role_to_max_level role with
      | none => SecurityLevel.LOW
      | some lvl => lvl
    (security_level_access effective_max, effective_max)

/-- Embeds `EmbeddingService.embed_batch` (embedding.py:187-251).  An empty batch
returns `[]` before the model is touched.  For a non-empty batch the lazy
model load, tokenization, inference, mean pooling and normalization are an
external numeric computation; its outcome (one vector per input, or a raised
exception, which the service re-raises unmodified) is the `inference`
oracle. -/
def embed_batch (inference : Except (List Char) (List (List ℚ)))
    (texts : List (List Char)) : Except (List Char) (List (List ℚ)) :=
  if texts.isEmpty then .ok [] else inference

/-- Embeds `EmbeddingService.embed_text` (embedding.py:168-185): raise `ValueError`
on an empty or all-whitespace string, otherwise `embed_batch([text])[0]`
(Python indexing `[0]` raises on an empty result list). -/
def embed_text (inference : Except (List Char) (List (List ℚ)))
    (text : List Char) : Except (List Char) (List ℚ) :=
  if text.isEmpty || (stripChars text).isEmpty then
    .error "embed_text received an empty string.".data
  else
    match embed_batch inference [text] with
    | .error e => .error e
    | .ok [] => .error "list index out of range".data
    | .ok (v :: _) => .ok v

/-- Fixed message of the extractive fallback for an empty context
(llm_service.py:381). -/
def no_info_msg : List Char :=
  "No relevant information found in the document database.".data

/-- The sentence list of `LLMService._generate_extractive`
(llm_service.py:383): replace newlines by spaces, split on the period
character, strip each segment and keep the non-empty ones. -/
def extractive_sentences (context : List Char) : List (List Char) :=
  (((context.map fun c => if c = '\n' then ' ' else c).splitOn '.').map stripChars).filter
    (fun s => !s.isEmpty)

/-- Embeds `LLMService._generate_extractive` (llm_service.py:363-392): the fixed
message when the context is blank or yields no sentences, otherwise the first
three sentences joined with `". "` and a trailing period.  The query argument
is unused, exactly as in the source. -/
def generate_extractive (_query context : List Char) : List Char :=
  if (stripChars context).isEmpty then no_info_msg
  else
    let sentences := extractive_sentences context
    if sentences.isEmpty then no_info_msg
    else joinSep ". ".data (sentences.take 3) ++ ['.']

/-- Embeds `LLMService.generate_answer` (llm_service.py:250-297).  `available` is the
outcome of `is_available` (registry lookup plus lazy load of the external
HuggingFace model, which never raises); `llm_result` is the outcome of
`_generate_with_llm` — either the non-empty answer text or a raised exception
(pipeline failure, or the ValueError on an empty or malformed model
response).  Any exception falls back to the extractive path with the
used-LLM flag false. -/
def generate_answer (available : Bool)
    (llm_result : Except (List Char) (List Char))
    (query context : List Char) : List Char × Bool :=
  if available then
    match llm_result with
    | .ok answer => (answer, true)
    | .error _ => (generate_extractive query context, false)
  else
    (generate_extractive query context, false)

/-- Embeds a `DocumentChunk` row (documents/models.py:56-95): security level is
denormalized from the parent document, `is_active` soft-disables a chunk. -/
structure Chunk where
  id : Nat
  document_id : Nat
  document_title : List Char
  chunk_index : Nat
  content : List Char
  security_level : SecurityLevel
  embedding : List ℚ
  token_count : Nat
  is_active : Bool
deriving DecidableEq, Repr

/-- Embeds `RAGQueryService._retrieve_chunks` (rag_query_service.py:290-349).
The pgvector similarity annotation `1 - CosineDistance(embedding, query)` is
computed by the consumed relational/vector store; it enters the model as the
function `sim`.  The code filters active chunks whose denormalized level is
in the allowed list, keeps those with similarity at or above the threshold
(which is resolved with Python truthiness against the settings value), orders
by descending similarity and truncates to the top `k`; it returns the chunk
list together with the list of chunk ids.  Ordering among equal scores is
unspecified at the database, so a stable sort models it. -/
def retrieve_chunks (corpus : List Chunk) (sim : Chunk → ℚ)
    (allowed_levels : List SecurityLevel)
    (similarity_threshold : Option ℚ) (settings_threshold : ℚ)
    (top_k : Nat) : List Chunk × List Nat :=
  let threshold :=
    match similarity_threshold with
    | none => settings_threshold
    | some t => if t = 0 then settings_threshold else t
  let eligible := corpus.filter
    (fun c => c.is_active && decide (c.security_level ∈ allowed_levels))
  let above := eligible.filter (fun c => decide (threshold ≤ sim c))
  let chunks := (above.insertionSort (fun a b => sim b ≤ sim a)).take top_k
  (chunks, chunks.map (·.id))

/-- Source label of chunk number `i` (0-based) in
`RAGQueryService._build_context` (rag_query_service.py:369). -/
def label_text (i : Nat) (c : Chunk) : List Char :=
  "[Source ".data ++ (Nat.repr (i + 1)).data ++ ": ".data ++ c.document_title
    ++ "]\n".data ++ c.content

/-- The accumulation loop of `RAGQueryService._build_context`
(rag_query_service.py:365-381): starting at index `i` with `total` characters
already used, append labeled texts while they fit the budget and stop at the
first one that would exceed it. -/
def build_parts (max_context_length : Nat) : Nat → Nat → List Chunk → List (List Char)
  | _, _, [] => []
  | i, total, c :: rest =>
    let text := label_text i c
    if max_context_length < total + text.length then []
    else text :: build_parts max_context_length (i + 1) (total + text.length) rest

/-- Embeds `RAGQueryService._build_context` (rag_query_service.py:351-383):
the kept labeled texts joined with a blank line. -/
def build_context (max_context_length : Nat) (chunks : List Chunk) : List Char :=
  joinSep "\n\n".data (build_parts max_context_length 0 0 chunks)

/-- The labeled texts of all chunks starting at index `i`; `build_parts`
always returns a prefix of this list. -/
def labeled_texts : Nat → List Chunk → List (List Char)
  | _, [] => []
  | i, c :: rest => label_text i c :: labeled_texts (i + 1) rest

/-- One entry of the `sources` list of a successful query response
(rag_query_service.py:244-253).  The display rounding of the similarity score
to four decimal places is left out of the model: the score is carried
exactly. -/
structure SourceEntry where
  chunk_id : Nat
  document_id : Nat
  document_title : List Char
  chunk_index : Nat
  similarity_score : ℚ
deriving DecidableEq, Repr

/-- Builds one `sources` entry from a retrieved chunk
(rag_query_service.py:245-251). -/
def mk_source_entry (sim : Chunk → ℚ) (c : Chunk) : SourceEntry :=
  ⟨c.id, c.document_id, c.document_title, c.chunk_index, sim c⟩

/-- A persisted `QueryHistory` row as created by the query pipeline.
Modelled from the spec for the fields the pipeline does not pass explicitly:
the `QueryHistory` model class (rag/models.py) is not among the sources, and
section 3 of the spec lists the audit attributes; counts and id lists default
to zero and empty for records created without them. -/
structure QueryHistoryRec where
  query : List Char
  retrieved_chunk_count : Nat := 0
  retrieved_chunk_ids : List Nat := []
  response : List Char
  response_source : String
  security_level : SecurityLevel
  is_flagged : Bool
  flag_reason : List Char
deriving DecidableEq, Repr

/-- The response dict of `RAGQueryService.query` (rag_query_service.py:88-114).
The success shape and the failure shape are merged into one structure with
optional fields; `latency_ms` and `success` are present in both shapes. -/
structure Response where
  success : Bool
  query_id : Option Nat
  answer : Option (List Char)
  source : Option String
  model : Option String
  chunks_used : Option Nat
  token_count : Option Nat
  error : Option (List Char)
  latency_ms : Nat
  sources : List SourceEntry
deriving DecidableEq, Repr

/-- The `except Exception` handler of `RAGQueryService.query`
(rag_query_service.py:256-284) together with `_persist_error_history`
(rag_query_service.py:448-498): attempt to insert an ERROR history record
(the insert outcome is the oracle `insert_error_ok`; its own failure is
swallowed and yields `query_id = None`), then return the structured failure
dict. -/
def query_error_path (query_text : List Char) (e : List Char)
    (effective_max_level : SecurityLevel) (insert_error_ok : Bool)
    (new_query_id latency_ms : Nat) : Response × List QueryHistoryRec :=
  let recs : List QueryHistoryRec :=
    if insert_error_ok then
      [{ query := query_text, response := "Error: ".data ++ e,
         response_source := "ERROR", security_level := effective_max_level,
         is_flagged := true, flag_reason := e }]
    else []
  ({ success := false,
     query_id := if insert_error_ok then some new_query_id else none,
     answer := none, source := none, model := none, chunks_used := none,
     token_count := none, error := some e, latency_ms := latency_ms,
     sources := [] }, recs)

/-- Fixed message of `_build_no_results_response`
(rag_query_service.py:409). -/
def no_results_msg : List Char :=
  "I could not find any relevant information to answer your question.".data

/-- Embeds `RAGQueryService.query` (rag_query_service.py:67-284), the public
pipeline entry point.  External effects enter as oracles:

- `inference` — outcome of the embedding model call inside
  `embedding_service.embed_text`;
- `retrieve_err` — a database exception raised while evaluating the pgvector
  queryset, or `none` when retrieval succeeds against `corpus`/`sim`;
- `llm_available`, `llm_result` — `LLMService` oracles as in
  `generate_answer`;
- `insert_ok`, `insert_noresults_ok`, `insert_error_ok` — whether the three
  possible `QueryHistory.objects.create` calls succeed;
- `new_query_id`, `latency_ms` — the id assigned by the database and the
  measured wall-clock latency.

The function returns the response dict together with the list of
`QueryHistory` rows actually persisted during the call. -/
def query (corpus : List Chunk) (sim : Chunk → ℚ)
    (user : Option String) (query_text : List Char) (model_name : Option String)
    (inference : Except (List Char) (List (List ℚ)))
    (retrieve_err : Option (List Char))
    (llm_available : Bool) (llm_result : Except (List Char) (List Char))
    (top_k : Nat) (settings_threshold : ℚ) (max_context_length : Nat)
    (insert_ok insert_noresults_ok insert_error_ok : Bool)
    (insert_exc : List Char)
    (new_query_id latency_ms : Nat) : Response × List QueryHistoryRec :=
  let resolved := get_user_allowed_security_levels user
  let allowed_levels := resolved.1
  let effective_max_level := resolved.2
  match embed_text inference query_text with
  | .error e =>
    query_error_path query_text e effective_max_level insert_error_ok
      new_query_id latency_ms
  | .ok _query_embedding =>
    match retrieve_err with
    | some e =>
      query_error_path query_text e effective_max_level insert_error_ok
        new_query_id latency_ms
    | none =>
      let retrieved := retrieve_chunks corpus sim allowed_levels none
        settings_threshold top_k
      let chunks := retrieved.1
      let chunk_ids := retrieved.2
      if chunks.isEmpty then
        -- _build_no_results_response (rag_query_service.py:385-446): the
        -- history insert is wrapped in try/except, a failed insert only
        -- loses the record and the query id.
        let recs : List QueryHistoryRec :=
          if insert_noresults_ok then
            [{ query := query_text, retrieved_chunk_count := 0,
               retrieved_chunk_ids := [], response := no_results_msg,
               response_source := "NO_RESULTS",
               security_level := effective_max_level,
               is_flagged := false, flag_reason := [] }]
          else []
        ({ success := true,
           query_id := if insert_noresults_ok then some new_query_id else none,
           answer := some no_results_msg, source := some "NO_RESULTS",
           model := none, chunks_used := some 0,
           token_count := some (count_words no_results_msg), error := none,
           latency_ms := latency_ms, sources := [] }, recs)
      else
        let context := build_context max_context_length chunks
        let generated := generate_answer llm_available llm_result query_text context
        let answer := generated.1
        let used_llm := generated.2
        let response_source := if used_llm then "LLM" else "EXTRACTIVE"
        if insert_ok then
          ({ success := true, query_id := some new_query_id,
             answer := some answer, source := some response_source,
             model := model_name, chunks_used := some chunks.length,
             token_count := some (count_words answer), error := none,
             latency_ms := latency_ms,
             sources := chunks.map (mk_source_entry sim) },
           [{ query := query_text, retrieved_chunk_count := chunks.length,
              retrieved_chunk_ids := chunk_ids, response := answer,
              response_source := response_source,
              security_level := effective_max_level,
              is_flagged := false, flag_reason := [] }])
        else
          -- The stage-5 QueryHistory insert raised: the outer handler
          -- catches it and runs _persist_error_history.
          query_error_path query_text insert_exc effective_max_level
            insert_error_ok new_query_id latency_ms

/-- Embeds `Document.Status` (documents/models.py:15-19). -/
inductive DocStatus
  | PENDING
  | PROCESSING
  | INDEXED
  | FAILED
deriving DecidableEq, Repr

/-- The fields of a `Document` row touched by the indexing pipeline
(documents/models.py:21-43). -/
structure Document where
  status : DocStatus
  error_message : List Char
  chunk_count : Nat
  security_level : SecurityLevel
deriving DecidableEq, Repr

/-- One chunk dict produced by `DocumentProcessor.process_document`
(document_processor.py:141-149): content, zero-based index, and the
whitespace-split word count; the metadata dict only carries the source
filename. -/
structure ChunkData where
  content : List Char
  chunk_index : Nat
  token_count : Nat
  source_name : List Char
deriving DecidableEq, Repr

/-- A `DocumentChunk` row as persisted by the indexing transaction
(indexing.py:195-206): the security level is copied from the document and
`is_active` takes the model default `True`. -/
structure ChunkRowOut where
  chunk_index : Nat
  content : List Char
  embedding : List ℚ
  token_count : Nat
  security_level : SecurityLevel
  is_active : Bool
deriving DecidableEq, Repr

/-- Embeds `DocumentIndexingService.index_document` (indexing.py:60-274) from
the point where the document row was found and set to PROCESSING.  Oracles:

- `download_res` — outcome of the MinIO download (step 1);
- `process_res`  — outcome of `process_document` (step 2): the chunk dict
  list, or a raised extraction error;
- `inference`    — embedding-model oracle threaded through the in-repo
  `embed_batch` (step 3);
- `persist_err`  — a `DatabaseError` raised inside the atomic transaction of
  step 4, or `none`; on a raise the transaction rolls back, so no chunk rows
  survive.

This definition is the `try` block (indexing.py:107-230): it yields either
the updated document together with the chunk rows the transaction persisted,
or the exception that escaped.  `index_document` below adds the failure
handler.  The temp-file cleanup in the `finally` block touches no modelled
state. -/
def index_attempt (doc : Document)
    (download_res : Except (List Char) Unit)
    (process_res : Except (List Char) (List ChunkData))
    (inference : Except (List Char) (List (List ℚ)))
    (persist_err : Option (List Char)) :
    Except (List Char) (Document × List ChunkRowOut) :=
  match download_res with
  | .error e => .error e
  | .ok _ =>
    match process_res with
    | .error e => .error e
    | .ok chunks =>
      if chunks.isEmpty then
        .error "Document produced zero chunks - file may be empty or unreadable.".data
      else
        match embed_batch inference (chunks.map (·.content)) with
        | .error e => .error e
        | .ok embeddings =>
          if embeddings.length ≠ chunks.length then
            .error "Embedding count mismatch.".data
          else
            match persist_err with
            | some e => .error e
            | none =>
              let rows := (chunks.zip embeddings).map fun ce =>
                ({ chunk_index := ce.1.chunk_index, content := ce.1.content,
                   embedding := ce.2, token_count := ce.1.token_count,
                   security_level := doc.security_level,
                   is_active := true } : ChunkRowOut)
              .ok ({ doc with
                       chunk_count := chunks.length
                       status := DocStatus.INDEXED }, rows)

/-- The outcome dispatch of `index_document`: on success return the updated
row set and `True`; on any exception store FAILED with the message and
re-raise (indexing.py:232-250). -/
def index_document (doc : Document)
    (download_res : Except (List Char) Unit)
    (process_res : Except (List Char) (List ChunkData))
    (inference : Except (List Char) (List (List ℚ)))
    (persist_err : Option (List Char)) :
    Document × List ChunkRowOut × Except (List Char) Bool :=
  let doc := { doc with status := DocStatus.PROCESSING }
  match index_attempt doc download_res process_res inference persist_err with
  | .ok (d, rows) => (d, rows, .ok true)
  | .error e =>
    ({ doc with status := DocStatus.FAILED, error_message := e }, [], .error e)

/-! ## Supporting lemmas -/

/-- Cumulative access table: membership in the allowed list is exactly rank
comparison against the maximum level. -/
lemma mem_security_level_access (m lvl : SecurityLevel) :
    lvl ∈ security_level_access m ↔ lvl.rank ≤ m.rank := by
  cases m <;> cases lvl <;> simp [security_level_access, SecurityLevel.rank]

/-- A role string outside the five known role values is not in the
role-to-level table. -/
lemma role_to_max_level_unknown (role : String)
    (h : role ∉ ["GUEST", "EMPLOYEE", "MANAGER", "CEO", "VICE_PRESIDENT"]) :
    role_to_max_level role = none := by
  simp only [List.mem_cons, List.not_mem_nil, or_false, not_or] at h
  obtain ⟨h1, h2, h3, h4, h5⟩ := h
  simp [role_to_max_level, h1, h2, h3, h4, h5]

/-! ## C7 — access resolution -/

/-- C7: access resolution returns the lowest tier for an absent identity, the
three lowest tiers with maximum HIGH for a MANAGER, the lowest tier for a
role absent from the table, and in every case the allowed list is exactly the
set of tiers at or below the returned maximum. -/
theorem access_resolution_cumulative :
    get_user_allowed_security_levels none = ([SecurityLevel.LOW], SecurityLevel.LOW)
    ∧ get_user_allowed_security_levels (some "MANAGER")
        = ([SecurityLevel.LOW, SecurityLevel.MID, SecurityLevel.HIGH], SecurityLevel.HIGH)
    ∧ (∀ role : String,
        role ∉ ["GUEST", "EMPLOYEE", "MANAGER", "CEO", "VICE_PRESIDENT"] →
        get_user_allowed_security_levels (some role)
          = ([SecurityLevel.LOW], SecurityLevel.LOW))
    ∧ (∀ (user : Option String) (lvl : SecurityLevel),
        lvl ∈ (get_user_allowed_security_levels user).1 ↔
          lvl.rank ≤ (get_user_allowed_security_levels user).2.rank) := by
  refine ⟨rfl, rfl, ?_, ?_⟩
  · intro role h
    simp [get_user_allowed_security_levels, role_to_max_level_unknown role h,
      security_level_access]
  · intro user lvl
    cases user with
    | none =>
      exact mem_security_level_access SecurityLevel.LOW lvl
    | some role =>
      simp only [get_user_allowed_security_levels]
      exact mem_security_level_access _ lvl

/-- Witness for C7 at concrete inputs: an unrecognized role resolves to LOW
only, and MID is allowed for a MANAGER because its rank is below HIGH. -/
theorem access_resolution_cumulative_witness :
    get_user_allowed_security_levels (some "INTERN")
        = ([SecurityLevel.LOW], SecurityLevel.LOW)
    ∧ (SecurityLevel.MID ∈ (get_user_allowed_security_levels (some "MANAGER")).1 ↔
        SecurityLevel.MID.rank ≤ (get_user_allowed_security_levels (some "MANAGER")).2.rank) :=
  ⟨access_resolution_cumulative.2.2.1 "INTERN" (by decide),
   access_resolution_cumulative.2.2.2 (some "MANAGER") SecurityLevel.MID⟩

/-! ## C8 — embedding interface asymmetry on empty input -/

/-- C8: an empty batch returns the empty list before the model is touched
(for every inference oracle, even a failing one), an empty or all-whitespace
single string raises the ValueError, and a non-empty batch — empty member
strings included — just returns the inference outcome, so it does not raise
when inference succeeds. -/
theorem embed_empty_asymmetry :
    (∀ inference, embed_batch inference [] = .ok [])
    ∧ (∀ inference (text : List Char), stripChars text = [] →
        embed_text inference text = .error "embed_text received an empty string.".data)
    ∧ (∀ inference (texts : List (List Char)), texts ≠ [] →
        embed_batch inference texts = inference) := by
  refine ⟨fun _ => rfl, ?_, ?_⟩
  · intro inference text h
    simp [embed_text, h]
  · intro inference texts h
    cases texts with
    | nil => exact absurd rfl h
    | cons t ts => simp [embed_batch]

/-- Witness for C8 at concrete inputs: an empty batch succeeds even when the
model call would fail, a blank single string raises, and a batch holding an
empty string succeeds. -/
theorem embed_empty_asymmetry_witness :
    embed_batch (.error "model down".data) [] = .ok []
    ∧ embed_text (.ok [[1]]) "  ".data
        = .error "embed_text received an empty string.".data
    ∧ embed_batch (.ok [[1], [2]]) ["".data, "hello".data] = .ok [[1], [2]] :=
  ⟨embed_empty_asymmetry.1 (.error "model down".data),
   embed_empty_asymmetry.2.1 (.ok [[1]]) "  ".data (by decide),
   embed_empty_asymmetry.2.2 (.ok [[1], [2]]) ["".data, "hello".data] (by decide)⟩

/-! ## C9 — constructor truthiness fallback -/

/-- C9: passing 0 for either constructor parameter is indistinguishable from
passing None — the settings default is silently substituted — so the overlap
of a service constructed with chunk_overlap equal to 0 is the settings
default, and is non-zero whenever that default is. -/
theorem chunking_init_truthiness :
    ∀ settings_size settings_overlap : Nat,
      (∀ sz, chunking_service_init sz (some 0) settings_size settings_overlap
          = chunking_service_init sz none settings_size settings_overlap)
      ∧ (∀ ov, chunking_service_init (some 0) ov settings_size settings_overlap
          = chunking_service_init none ov settings_size settings_overlap)
      ∧ (∀ sz svc, chunking_service_init sz (some 0) settings_size settings_overlap
            = .ok svc → svc.chunk_overlap = settings_overlap)
      ∧ (settings_overlap ≠ 0 →
          ∀ sz svc, chunking_service_init sz (some 0) settings_size settings_overlap
            = .ok svc → svc.chunk_overlap ≠ 0) := by
  intro settings_size settings_overlap
  have resolved : ∀ sz svc,
      chunking_service_init sz (some 0) settings_size settings_overlap = .ok svc →
      svc.chunk_overlap = settings_overlap := by
    intro sz svc h
    have h0 : ∀ d : Nat, orDefault (some 0) d = d := fun _ => rfl
    simp only [chunking_service_init, h0] at h
    split at h
    · exact Except.noConfusion h
    · cases h
      rfl
  refine ⟨fun sz => rfl, fun ov => rfl, resolved, ?_⟩
  intro hdef sz svc h
  rw [resolved sz svc h]
  exact hdef

/-- Witness for C9 at concrete inputs: with settings defaults 400/50, passing
0 as overlap behaves like passing None and yields overlap 50, not 0. -/
theorem chunking_init_truthiness_witness :
    chunking_service_init (some 300) (some 0) 400 50
        = chunking_service_init (some 300) none 400 50
    ∧ (⟨300, 50⟩ : ChunkingService).chunk_overlap ≠ 0 :=
  ⟨(chunking_init_truthiness 400 50).1 (some 300),
   (chunking_init_truthiness 400 50).2.2.2 (by decide) (some 300) ⟨300, 50⟩ rfl⟩

/-! ## C6 — extractive fallback -/

/-- Prefix of a text through its n-th period, or the whole text when it has
fewer periods.  This formalizes the claim wording "the first three
sentence-delimited segments of the context verbatim" (spec-side reading, for
comparison against the source behavior). -/
def take_segments : Nat → List Char → List Char
  | _, [] => []
  | 0, _ => []
  | n + 1, c :: t => c :: (if c = '.' then take_segments n t else take_segments (n + 1) t)

/-- The first three sentence-delimited segments of a text, verbatim. -/
def spec_first_three_sentences (context : List Char) : List Char :=
  take_segments 3 context

/-- Counterexample to C6 as stated: on a context containing a newline (as
every assembled context does, since source labels end in a newline), the
extractive fallback answer is not the first three sentence-delimited segments
of the context verbatim — the newline has been replaced by a space. -/
theorem extractive_not_verbatim_counterexample :
    generate_answer false (.error []) "q".data "a\nb. c. d. e.".data
      = ("a b. c. d.".data, false)
    ∧ spec_first_three_sentences "a\nb. c. d. e.".data = "a\nb. c. d.".data
    ∧ "a b. c. d.".data ≠ "a\nb. c. d.".data := by
  refine ⟨by decide, by decide, by decide⟩

/-- C6 amended: when the model is unavailable or its call fails,
generate_answer returns the extractive fallback with the used-LLM flag false;
the fallback yields the fixed no-information message on blank context (or
context with no non-empty sentence segments), and otherwise the first three
segments of the newline-flattened context — each stripped of surrounding
whitespace, empty segments dropped — joined with a period-space separator and
a trailing period.  The fallback path is a total function of its inputs, so
it never throws. -/
theorem extractive_fallback_amended :
    ∀ (q context : List Char) (llm_result : Except (List Char) (List Char)),
      generate_answer false llm_result q context = (generate_extractive q context, false)
      ∧ (∀ e, generate_answer true (.error e) q context
          = (generate_extractive q context, false))
      ∧ (∀ answer, generate_answer true (.ok answer) q context = (answer, true))
      ∧ (stripChars context = [] → generate_extractive q context = no_info_msg)
      ∧ (extractive_sentences context = [] → generate_extractive q context = no_info_msg)
      ∧ (stripChars context ≠ [] → extractive_sentences context ≠ [] →
          generate_extractive q context
            = joinSep ". ".data ((extractive_sentences context).take 3) ++ ['.']) := by
  intro q context llm_result
  refine ⟨rfl, fun e => rfl, fun answer => rfl, ?_, ?_, ?_⟩
  · intro h
    simp [generate_extractive, h]
  · intro h
    unfold generate_extractive
    split
    · rfl
    · simp [h]
  · intro h1 h2
    simp [generate_extractive, h1, h2]

/-- Witness for C6 at concrete inputs: a failing model call on a four-sentence
context falls back to the first three sentences joined with a period-space
separator. -/
theorem extractive_fallback_amended_witness :
    generate_answer true (.error "inference failed".data) "q".data "x. y. z. w.".data
      = (generate_extractive "q".data "x. y. z. w.".data, false)
    ∧ generate_extractive "q".data "x. y. z. w.".data
      = joinSep ". ".data ((extractive_sentences "x. y. z. w.".data).take 3) ++ ['.']
    ∧ generate_extractive "q".data "   ".data = no_info_msg :=
  ⟨(extractive_fallback_amended "q".data "x. y. z. w.".data
      (.error "inference failed".data)).2.1 "inference failed".data,
   (extractive_fallback_amended "q".data "x. y. z. w.".data
      (.error [])).2.2.2.2.2 (by decide) (by decide),
   (extractive_fallback_amended "q".data "   ".data (.error [])).2.2.2.1 (by decide)⟩

/-! ## C10 — context assembly budget -/

/-- build_parts always returns a prefix of the labeled texts of its input. -/
lemma build_parts_prefix (max_context_length : Nat) :
    ∀ (rest : List Chunk) (i total : Nat),
      ∃ k, build_parts max_context_length i total rest = (labeled_texts i rest).take k := by
  intro rest
  induction rest with
  | nil => exact fun i total => ⟨0, by simp [build_parts, labeled_texts]⟩
  | cons c rest ih =>
    intro i total
    by_cases h : max_context_length < total + (label_text i c).length
    · exact ⟨0, by simp [build_parts, labeled_texts, h]⟩
    · obtain ⟨k, hk⟩ := ih (i + 1) (total + (label_text i c).length)
      exact ⟨k + 1, by simp [build_parts, labeled_texts, h, hk]⟩

/-- The characters already used plus the characters of all kept parts never
exceed the budget. -/
lemma build_parts_sum_le (max_context_length : Nat) :
    ∀ (rest : List Chunk) (i total : Nat), total ≤ max_context_length →
      total + ((build_parts max_context_length i total rest).map List.length).sum
        ≤ max_context_length := by
  intro rest
  induction rest with
  | nil => intro i total h; simpa [build_parts] using h
  | cons c rest ih =>
    intro i total h
    by_cases hb : max_context_length < total + (label_text i c).length
    · simpa [build_parts, hb] using h
    · have := ih (i + 1) (total + (label_text i c).length) (by omega)
      simp only [build_parts, if_neg hb, List.map_cons, List.sum_cons]
      omega

/-- Length of a separator join: the summed part lengths plus one separator
between each consecutive pair. -/
lemma joinSep_length (sep : List Char) :
    ∀ parts : List (List Char),
      (joinSep sep parts).length
        = (parts.map List.length).sum + sep.length * (parts.length - 1) := by
  intro parts
  induction parts with
  | nil => simp [joinSep]
  | cons p ps ih =>
    cases ps with
    | nil => simp [joinSep]
    | cons q qs =>
      simp only [joinSep, List.length_append, ih, List.map_cons, List.sum_cons,
        List.length_cons, Nat.add_sub_cancel, Nat.succ_sub_one, Nat.mul_succ]
      ring

/-- C10: the kept chunks form a prefix of the labeled input texts whose
summed lengths fit the budget; the joined context string can only exceed the
budget by the two-character separators — at most 2 times (number of parts
minus one) — and there are inputs where it does exceed the budget. -/
theorem context_budget_accounting :
    (∀ (max_context_length : Nat) (chunks : List Chunk),
      ∃ k, build_parts max_context_length 0 0 chunks = (labeled_texts 0 chunks).take k)
    ∧ (∀ (max_context_length : Nat) (chunks : List Chunk),
        ((build_parts max_context_length 0 0 chunks).map List.length).sum
          ≤ max_context_length)
    ∧ (∀ (max_context_length : Nat) (chunks : List Chunk),
        (build_context max_context_length chunks).length
          ≤ max_context_length
            + 2 * ((build_parts max_context_length 0 0 chunks).length - 1))
    ∧ (∃ (m : Nat) (chunks : List Chunk), m < (build_context m chunks).length) := by
  refine ⟨fun m chunks => build_parts_prefix m chunks 0 0, ?_, ?_, ?_⟩
  · intro m chunks
    simpa using build_parts_sum_le m chunks 0 0 (Nat.zero_le m)
  · intro m chunks
    have hsum : ((build_parts m 0 0 chunks).map List.length).sum ≤ m := by
      simpa using build_parts_sum_le m chunks 0 0 (Nat.zero_le m)
    have hj := joinSep_length "\n\n".data (build_parts m 0 0 chunks)
    simp only [build_context, hj]
    have : ("\n\n".data).length = 2 := by decide
    rw [this]
    omega
  · refine ⟨30, [⟨0, 0, [], 0, "ab".data, .LOW, [], 0, true⟩,
      ⟨1, 0, [], 1, "cd".data, .LOW, [], 0, true⟩], ?_⟩
    decide

/-! ## C2 — indexing failure handling and atomicity -/

/-- A successful indexing attempt yields an INDEXED document whose
chunk_count matches the persisted rows. -/
lemma index_attempt_ok_shape :
    ∀ (doc : Document) download_res process_res inference persist_err
      (d : Document) (rows : List ChunkRowOut),
      index_attempt doc download_res process_res inference persist_err = .ok (d, rows) →
      d.status = DocStatus.INDEXED ∧ d.chunk_count = rows.length := by
  intro doc download_res process_res inference persist_err d rows h
  unfold index_attempt at h
  split at h
  · exact Except.noConfusion h
  split at h
  · exact Except.noConfusion h
  split at h
  · exact Except.noConfusion h
  split at h
  · exact Except.noConfusion h
  split at h
  · exact Except.noConfusion h
  split at h
  · exact Except.noConfusion h
  · cases h
    refine ⟨rfl, ?_⟩
    simp only [List.length_map, List.length_zip]
    omega

/-- A document that produced zero chunks makes the attempt fail. -/
lemma index_attempt_zero_chunks :
    ∀ (doc : Document) download_res inference persist_err,
      ∃ e, index_attempt doc download_res (.ok []) inference persist_err = .error e := by
  intro doc download_res inference persist_err
  rcases download_res with de | u
  · exact ⟨de, rfl⟩
  · exact ⟨_, rfl⟩

/-- A count mismatch between embeddings and chunks makes the attempt fail
with the defensive-check message. -/
lemma index_attempt_mismatch :
    ∀ (doc : Document) (chunks : List ChunkData) (embeddings : List (List ℚ))
      persist_err,
      chunks ≠ [] → embeddings.length ≠ chunks.length →
      index_attempt doc (.ok ()) (.ok chunks) (.ok embeddings) persist_err
        = .error "Embedding count mismatch.".data := by
  intro doc chunks embeddings persist_err hne hl
  have hc : chunks.isEmpty = false := by
    cases chunks
    · exact absurd rfl hne
    · rfl
  have hb : embed_batch (.ok embeddings) (chunks.map (·.content)) = .ok embeddings := by
    unfold embed_batch
    rw [if_neg (by simp [List.isEmpty_iff, List.map_eq_nil_iff]; exact hne)]
  simp [index_attempt, hc, hb, hl]

/-- C2: for every failure in steps 3-6 of index_document — download failure,
extraction failure, zero extracted chunks, embedding failure, an
embedding/chunk count mismatch, or a database error inside the persistence
transaction — the document ends FAILED with the exception message recorded,
the exception is re-raised, and zero chunk rows are persisted; chunk rows
exist exactly when the run succeeded, in which case the document is INDEXED
with chunk_count equal to the number of persisted rows (rows and the final
status are written in one atomic transaction). -/
theorem indexing_failure_atomic :
    ∀ (doc : Document) (download_res : Except (List Char) Unit)
      (process_res : Except (List Char) (List ChunkData))
      (inference : Except (List Char) (List (List ℚ)))
      (persist_err : Option (List Char)),
      (∀ e, (index_document doc download_res process_res inference persist_err).2.2
          = .error e →
        (index_document doc download_res process_res inference persist_err).1.status
            = DocStatus.FAILED
        ∧ (index_document doc download_res process_res inference persist_err).1.error_message
            = e
        ∧ (index_document doc download_res process_res inference persist_err).2.1 = [])
      ∧ ((index_document doc download_res process_res inference persist_err).2.2
          = .ok true →
        (index_document doc download_res process_res inference persist_err).1.status
            = DocStatus.INDEXED
        ∧ (index_document doc download_res process_res inference persist_err).1.chunk_count
            = (index_document doc download_res process_res inference persist_err).2.1.length)
      ∧ ((index_document doc download_res process_res inference persist_err).2.1 ≠ [] →
        (index_document doc download_res process_res inference persist_err).2.2 = .ok true)
      ∧ (process_res = .ok [] →
        ∃ e, (index_document doc download_res process_res inference persist_err).2.2
          = .error e)
      ∧ (∀ chunks embeddings, process_res = .ok chunks → chunks ≠ [] →
          inference = .ok embeddings → embeddings.length ≠ chunks.length →
          download_res = .ok () →
          (index_document doc download_res process_res inference persist_err).2.2
            = .error "Embedding count mismatch.".data) := by
  intro doc download_res process_res inference persist_err
  refine ⟨?_, ?_, ?_, ?_, ?_⟩
  · intro e h
    rcases hA : index_attempt { doc with status := DocStatus.PROCESSING }
        download_res process_res inference persist_err with eA | ⟨d, rows⟩
    · simp only [index_document, hA] at h
      simp only [Except.error.injEq] at h
      subst h
      simp [index_document, hA]
    · simp only [index_document, hA] at h
      exact Except.noConfusion h
  · intro h
    rcases hA : index_attempt { doc with status := DocStatus.PROCESSING }
        download_res process_res inference persist_err with eA | ⟨d, rows⟩
    · simp only [index_document, hA] at h
      exact Except.noConfusion h
    · simp only [index_document, hA]
      exact index_attempt_ok_shape _ _ _ _ _ d rows hA
  · intro h
    rcases hA : index_attempt { doc with status := DocStatus.PROCESSING }
        download_res process_res inference persist_err with eA | ⟨d, rows⟩
    · simp only [index_document, hA] at h
      exact absurd rfl h
    · simp only [index_document, hA]
  · intro hpr
    subst hpr
    obtain ⟨e, he⟩ := index_attempt_zero_chunks
      { doc with status := DocStatus.PROCESSING } download_res inference persist_err
    exact ⟨e, by simp only [index_document, he]⟩
  · intro chunks embeddings hpr hne hinf hl hdl
    subst hpr
    subst hinf
    subst hdl
    have he := index_attempt_mismatch { doc with status := DocStatus.PROCESSING }
      chunks embeddings persist_err hne hl
    simp only [index_document, he]

/-- Witness for C2 at concrete inputs: a database error during persistence
leaves the document FAILED with the message recorded, zero rows, and the
error re-raised; and a mismatched embedding count is a hard error. -/
theorem indexing_failure_atomic_witness :
    (index_document ⟨DocStatus.PENDING, [], 0, SecurityLevel.MID⟩ (.ok ())
        (.ok [⟨"ab".data, 0, 1, "f.txt".data⟩]) (.ok [[1]])
        (some "db down".data)).1.status = DocStatus.FAILED
    ∧ (index_document ⟨DocStatus.PENDING, [], 0, SecurityLevel.MID⟩ (.ok ())
        (.ok [⟨"ab".data, 0, 1, "f.txt".data⟩]) (.ok [[1]])
        (some "db down".data)).2.1 = []
    ∧ (index_document ⟨DocStatus.PENDING, [], 0, SecurityLevel.MID⟩ (.ok ())
        (.ok [⟨"ab".data, 0, 1, "f.txt".data⟩]) (.ok [[1], [2]])
        none).2.2 = .error "Embedding count mismatch.".data := by
  have h := indexing_failure_atomic ⟨DocStatus.PENDING, [], 0, SecurityLevel.MID⟩
    (.ok ()) (.ok [⟨"ab".data, 0, 1, "f.txt".data⟩]) (.ok [[1]])
    (some "db down".data)
  have h1 := h.1 "db down".data rfl
  have h2 := indexing_failure_atomic ⟨DocStatus.PENDING, [], 0, SecurityLevel.MID⟩
    (.ok ()) (.ok [⟨"ab".data, 0, 1, "f.txt".data⟩]) (.ok [[1], [2]]) none
  exact ⟨h1.1, h1.2.2,
    h2.2.2.2.2 [⟨"ab".data, 0, 1, "f.txt".data⟩] [[1], [2]] rfl (by decide) rfl
      (by decide) rfl⟩

/-! ## C1 — retrieval security filter -/

/-- A chunk returned by retrieval is active and its tier is in the permitted
set (the queryset filter of _retrieve_chunks). -/
lemma mem_retrieve_chunks :
    ∀ (corpus : List Chunk) (sim : Chunk → ℚ) (allowed_levels : List SecurityLevel)
      (similarity_threshold : Option ℚ) (settings_threshold : ℚ) (top_k : Nat)
      (c : Chunk),
      c ∈ (retrieve_chunks corpus sim allowed_levels similarity_threshold
            settings_threshold top_k).1 →
      c.is_active = true ∧ c.security_level ∈ allowed_levels := by
  intro corpus sim allowed_levels similarity_threshold settings_threshold top_k c h
  simp only [retrieve_chunks] at h
  have h1 := List.take_subset _ _ h
  rw [List.mem_insertionSort] at h1
  have h2 := List.mem_of_mem_filter h1
  have h3 := (List.mem_filter.mp h2).2
  simp only [Bool.and_eq_true, decide_eq_true_eq] at h3
  exact h3

/-- When no corpus chunk passes the security filter, retrieval returns
nothing. -/
lemma retrieve_chunks_filtered_empty :
    ∀ (corpus : List Chunk) (sim : Chunk → ℚ) (allowed_levels : List SecurityLevel)
      (similarity_threshold : Option ℚ) (settings_threshold : ℚ) (top_k : Nat),
      (∀ c ∈ corpus, ¬ (c.is_active = true ∧ c.security_level ∈ allowed_levels)) →
      retrieve_chunks corpus sim allowed_levels similarity_threshold
          settings_threshold top_k = ([], []) := by
  intro corpus sim allowed_levels similarity_threshold settings_threshold top_k h
  have hf : corpus.filter
      (fun c => c.is_active && decide (c.security_level ∈ allowed_levels)) = [] := by
    rw [List.filter_eq_nil_iff]
    intro c hc
    simp only [Bool.and_eq_true, decide_eq_true_eq]
    exact h c hc
  simp [retrieve_chunks, hf]

/-- C1: every chunk returned by retrieval is active with a tier in the
permitted set; every entry of a query response sources list is built from
such a chunk (for the access levels resolved for the requesting identity);
and an identity resolved to tier MID (role EMPLOYEE) querying a corpus of
HIGH-tier chunks gets zero eligible candidates and a NO_RESULTS response
with an empty sources list. -/
theorem retrieval_respects_access :
    (∀ (corpus : List Chunk) (sim : Chunk → ℚ) (allowed_levels : List SecurityLevel)
      (similarity_threshold : Option ℚ) (settings_threshold : ℚ) (top_k : Nat)
      (c : Chunk),
      c ∈ (retrieve_chunks corpus sim allowed_levels similarity_threshold
            settings_threshold top_k).1 →
      c.is_active = true ∧ c.security_level ∈ allowed_levels)
    ∧ (∀ (corpus : List Chunk) (sim : Chunk → ℚ) (user : Option String)
        (query_text : List Char) (model_name : Option String)
        (inference : Except (List Char) (List (List ℚ)))
        (retrieve_err : Option (List Char))
        (llm_available : Bool) (llm_result : Except (List Char) (List Char))
        (top_k : Nat) (settings_threshold : ℚ) (max_context_length : Nat)
        (insert_ok insert_noresults_ok insert_error_ok : Bool)
        (insert_exc : List Char) (new_query_id latency_ms : Nat)
        (entry : SourceEntry),
        entry ∈ (query corpus sim user query_text model_name inference retrieve_err
            llm_available llm_result top_k settings_threshold max_context_length
            insert_ok insert_noresults_ok insert_error_ok insert_exc
            new_query_id latency_ms).1.sources →
        ∃ c : Chunk, c.is_active = true
          ∧ c.security_level ∈ (get_user_allowed_security_levels user).1
          ∧ entry = mk_source_entry sim c)
    ∧ (∀ (corpus : List Chunk) (sim : Chunk → ℚ)
        (query_text : List Char) (model_name : Option String)
        (inference : Except (List Char) (List (List ℚ)))
        (llm_available : Bool) (llm_result : Except (List Char) (List Char))
        (top_k : Nat) (settings_threshold : ℚ) (max_context_length : Nat)
        (insert_ok insert_noresults_ok insert_error_ok : Bool)
        (insert_exc : List Char) (new_query_id latency_ms : Nat),
        (∀ c ∈ corpus, c.security_level = SecurityLevel.HIGH) →
        (∃ v, embed_text inference query_text = .ok v) →
        (retrieve_chunks corpus sim [SecurityLevel.LOW, SecurityLevel.MID] none
            settings_threshold top_k).1 = []
        ∧ (query corpus sim (some "EMPLOYEE") query_text model_name inference none
            llm_available llm_result top_k settings_threshold max_context_length
            insert_ok insert_noresults_ok insert_error_ok insert_exc
            new_query_id latency_ms).1.source = some "NO_RESULTS"
        ∧ (query corpus sim (some "EMPLOYEE") query_text model_name inference none
            llm_available llm_result top_k settings_threshold max_context_length
            insert_ok insert_noresults_ok insert_error_ok insert_exc
            new_query_id latency_ms).1.sources = []
        ∧ (query corpus sim (some "EMPLOYEE") query_text model_name inference none
            llm_available llm_result top_k settings_threshold max_context_length
            insert_ok insert_noresults_ok insert_error_ok insert_exc
            new_query_id latency_ms).1.success = true) := by
  refine ⟨mem_retrieve_chunks, ?_, ?_⟩
  · intro corpus sim user query_text model_name inference retrieve_err llm_available
      llm_result top_k settings_threshold max_context_length insert_ok
      insert_noresults_ok insert_error_ok insert_exc new_query_id latency_ms entry h
    rcases he : embed_text inference query_text with e | v
    · simp [query, he, query_error_path] at h
    · rcases retrieve_err with _ | e
      · by_cases hemp : (retrieve_chunks corpus sim
            (get_user_allowed_security_levels user).1 none settings_threshold top_k).1 = []
        · simp [query, he, hemp] at h
        · rcases hio : insert_ok with _ | _
          · simp [query, he, hemp, hio, query_error_path] at h
          · simp [query, he, hemp, hio, List.mem_map] at h
            obtain ⟨c, hc, hce⟩ := h
            obtain ⟨ha, hl⟩ := mem_retrieve_chunks corpus sim _ none settings_threshold
              top_k c hc
            exact ⟨c, ha, hl, hce.symm⟩
      · simp [query, he, query_error_path] at h
  · intro corpus sim query_text model_name inference llm_available llm_result top_k
      settings_threshold max_context_length insert_ok insert_noresults_ok
      insert_error_ok insert_exc new_query_id latency_ms hhigh ⟨v, he⟩
    have hret := retrieve_chunks_filtered_empty corpus sim
      [SecurityLevel.LOW, SecurityLevel.MID] none settings_threshold top_k
      (by
        intro c hc h
        have := hhigh c hc
        rw [this] at h
        simp at h)
    have hallowed : (get_user_allowed_security_levels (some "EMPLOYEE")).1
        = [SecurityLevel.LOW, SecurityLevel.MID] := rfl
    refine ⟨by rw [hret], ?_, ?_, ?_⟩ <;>
      simp [query, he, hallowed, hret]

/-- Witness for C1 at concrete inputs: a retrieved MID chunk is active and
MID-permitted, and an EMPLOYEE over a HIGH-only corpus gets NO_RESULTS with
no sources. -/
theorem retrieval_respects_access_witness :
    ((⟨1, 1, "T".data, 0, "xy".data, SecurityLevel.MID, [], 0, true⟩ : Chunk).is_active = true
      ∧ (⟨1, 1, "T".data, 0, "xy".data, SecurityLevel.MID, [], 0, true⟩ : Chunk).security_level
          ∈ [SecurityLevel.LOW, SecurityLevel.MID])
    ∧ ((retrieve_chunks [⟨1, 1, "T".data, 0, "xy".data, SecurityLevel.HIGH, [], 0, true⟩]
          (fun _ => 9) [SecurityLevel.LOW, SecurityLevel.MID] none 1 5).1 = []
      ∧ (query [⟨1, 1, "T".data, 0, "xy".data, SecurityLevel.HIGH, [], 0, true⟩]
          (fun _ => 9) (some "EMPLOYEE") "q".data none (.ok [[1]]) none false
          (.error []) 5 1 1000 true true true [] 42 7).1.source = some "NO_RESULTS"
      ∧ (query [⟨1, 1, "T".data, 0, "xy".data, SecurityLevel.HIGH, [], 0, true⟩]
          (fun _ => 9) (some "EMPLOYEE") "q".data none (.ok [[1]]) none false
          (.error []) 5 1 1000 true true true [] 42 7).1.sources = []
      ∧ (query [⟨1, 1, "T".data, 0, "xy".data, SecurityLevel.HIGH, [], 0, true⟩]
          (fun _ => 9) (some "EMPLOYEE") "q".data none (.ok [[1]]) none false
          (.error []) 5 1 1000 true true true [] 42 7).1.success = true) :=
  ⟨retrieval_respects_access.1
      [⟨1, 1, "T".data, 0, "xy".data, SecurityLevel.MID, [], 0, true⟩]
      (fun _ => 9) [SecurityLevel.LOW, SecurityLevel.MID] none 1 5
      ⟨1, 1, "T".data, 0, "xy".data, SecurityLevel.MID, [], 0, true⟩ (by decide),
   retrieval_respects_access.2.2
      [⟨1, 1, "T".data, 0, "xy".data, SecurityLevel.HIGH, [], 0, true⟩]
      (fun _ => 9) "q".data none (.ok [[1]]) false (.error []) 5 1 1000
      true true true [] 42 7 (by decide) ⟨[1], rfl⟩⟩

/-! ## C3 — one audit record per query attempt -/

/-- Counterexample to C3 as stated: a query attempt on which the audit insert
itself raises creates zero QueryHistory records — the insert failure is
swallowed (rag_query_service.py:429-434) and the attempt still completes with
a success response.  The claim that every attempt yields exactly one record
is therefore false on the code. -/
theorem audit_missing_record_counterexample :
    (query [] (fun _ => 0) none "q".data none (.ok [[1]]) none false (.error [])
        5 1 100 true false true [] 3 7).2 = []
    ∧ (query [] (fun _ => 0) none "q".data none (.ok [[1]]) none false (.error [])
        5 1 100 true false true [] 3 7).1.success = true := by
  exact ⟨by decide, by decide⟩

/-- C3 amended: provided the QueryHistory inserts themselves succeed, every
query attempt — success, extractive fallback, no-results, or failure —
creates exactly one audit record, with a provenance tag among LLM,
EXTRACTIVE, NO_RESULTS and ERROR, and a NO_RESULTS record carries
retrieved_chunk_count zero; when an audit insert fails, the failure is
swallowed and the attempt leaves no record. -/
theorem audit_record_per_attempt :
    ∀ (corpus : List Chunk) (sim : Chunk → ℚ) (user : Option String)
      (query_text : List Char) (model_name : Option String)
      (inference : Except (List Char) (List (List ℚ)))
      (retrieve_err : Option (List Char))
      (llm_available : Bool) (llm_result : Except (List Char) (List Char))
      (top_k : Nat) (settings_threshold : ℚ) (max_context_length : Nat)
      (insert_exc : List Char) (new_query_id latency_ms : Nat),
      (query corpus sim user query_text model_name inference retrieve_err
          llm_available llm_result top_k settings_threshold max_context_length
          true true true insert_exc new_query_id latency_ms).2.length = 1
      ∧ (∀ rec ∈ (query corpus sim user query_text model_name inference retrieve_err
            llm_available llm_result top_k settings_threshold max_context_length
            true true true insert_exc new_query_id latency_ms).2,
          (rec.response_source = "LLM" ∨ rec.response_source = "EXTRACTIVE"
            ∨ rec.response_source = "NO_RESULTS" ∨ rec.response_source = "ERROR")
          ∧ (rec.response_source = "NO_RESULTS" → rec.retrieved_chunk_count = 0)) := by
  intro corpus sim user query_text model_name inference retrieve_err llm_available
    llm_result top_k settings_threshold max_context_length insert_exc
    new_query_id latency_ms
  rcases he : embed_text inference query_text with e | v
  · constructor
    · simp [query, he, query_error_path]
    · intro rec hrec
      simp [query, he, query_error_path] at hrec
      subst hrec
      simp
  · rcases retrieve_err with _ | e
    · by_cases hemp : (retrieve_chunks corpus sim
          (get_user_allowed_security_levels user).1 none settings_threshold top_k).1 = []
      · constructor
        · simp [query, he, hemp]
        · intro rec hrec
          simp [query, he, hemp] at hrec
          subst hrec
          simp
      · constructor
        · simp [query, he, hemp]
        · intro rec hrec
          simp [query, he, hemp] at hrec
          subst hrec
          constructor
          · rcases (generate_answer llm_available llm_result query_text
              (build_context max_context_length (retrieve_chunks corpus sim
                (get_user_allowed_security_levels user).1 none settings_threshold
                top_k).1)).2 with _ | _ <;> simp
          · intro hsrc
            exfalso
            revert hsrc
            rcases (generate_answer llm_available llm_result query_text
              (build_context max_context_length (retrieve_chunks corpus sim
                (get_user_allowed_security_levels user).1 none settings_threshold
                top_k).1)).2 with _ | _ <;> simp
    · constructor
      · simp [query, he, query_error_path]
      · intro rec hrec
        simp [query, he, query_error_path] at hrec
        subst hrec
        simp

/-- Witness for C3 amended at concrete inputs: a no-results attempt with
succeeding inserts creates exactly one record, whose provenance is among the
four tags and whose retrieved count is zero. -/
theorem audit_record_per_attempt_witness :
    (query [] (fun _ => 0) none "q".data none (.ok [[1]]) none false (.error [])
        5 1 100 true true true [] 3 7).2.length = 1
    ∧ ((⟨"q".data, 0, [], no_results_msg, "NO_RESULTS", SecurityLevel.LOW, false,
          []⟩ : QueryHistoryRec).response_source = "LLM"
        ∨ (⟨"q".data, 0, [], no_results_msg, "NO_RESULTS", SecurityLevel.LOW, false,
          []⟩ : QueryHistoryRec).response_source = "EXTRACTIVE"
        ∨ (⟨"q".data, 0, [], no_results_msg, "NO_RESULTS", SecurityLevel.LOW, false,
          []⟩ : QueryHistoryRec).response_source = "NO_RESULTS"
        ∨ (⟨"q".data, 0, [], no_results_msg, "NO_RESULTS", SecurityLevel.LOW, false,
          []⟩ : QueryHistoryRec).response_source = "ERROR") :=
  ⟨(audit_record_per_attempt [] (fun _ => 0) none "q".data none (.ok [[1]]) none
      false (.error []) 5 1 100 [] 3 7).1,
   ((audit_record_per_attempt [] (fun _ => 0) none "q".data none (.ok [[1]]) none
      false (.error []) 5 1 100 [] 3 7).2 _ (by decide)).1⟩

/-! ## C4 — the query boundary never raises -/

/-- Counterexample to C4 as stated: when the pipeline fails (here, an empty
query string makes the embedding stage raise its ValueError) and the ERROR
history insert itself also fails, the exception is still converted into the
structured failure dict, but no ERROR audit record exists — the conversion
into an audit record is only attempted, not guaranteed. -/
theorem error_record_missing_counterexample :
    (query [] (fun _ => 0) none [] none (.ok [[1]]) none false (.error [])
        5 1 100 true true false [] 3 7).1.success = false
    ∧ (query [] (fun _ => 0) none [] none (.ok [[1]]) none false (.error [])
        5 1 100 true true false [] 3 7).2 = [] := by
  exact ⟨by decide, by decide⟩

/-- C4 amended: the embedded query function is total — it returns a response
dict for every input and every oracle outcome, so no exception escapes its
boundary — and whenever a pipeline stage raises (the embedding stage, the
retrieval queryset, or the success-path history insert), the response is the
structured failure shape: success false, the exception text in the error
field, the measured latency; an ERROR audit record is attempted and exists
whenever its insert succeeds.  A response that is not a failure is a success
response. -/
theorem query_failure_payload :
    ∀ (corpus : List Chunk) (sim : Chunk → ℚ) (user : Option String)
      (query_text : List Char) (model_name : Option String)
      (inference : Except (List Char) (List (List ℚ)))
      (retrieve_err : Option (List Char))
      (llm_available : Bool) (llm_result : Except (List Char) (List Char))
      (top_k : Nat) (settings_threshold : ℚ) (max_context_length : Nat)
      (insert_ok insert_noresults_ok insert_error_ok : Bool)
      (insert_exc : List Char) (new_query_id latency_ms : Nat),
      (∀ e, embed_text inference query_text = .error e →
        (query corpus sim user query_text model_name inference retrieve_err
            llm_available llm_result top_k settings_threshold max_context_length
            insert_ok insert_noresults_ok insert_error_ok insert_exc
            new_query_id latency_ms)
          = query_error_path query_text e (get_user_allowed_security_levels user).2
              insert_error_ok new_query_id latency_ms)
      ∧ (∀ e v, embed_text inference query_text = .ok v → retrieve_err = some e →
        (query corpus sim user query_text model_name inference retrieve_err
            llm_available llm_result top_k settings_threshold max_context_length
            insert_ok insert_noresults_ok insert_error_ok insert_exc
            new_query_id latency_ms)
          = query_error_path query_text e (get_user_allowed_security_levels user).2
              insert_error_ok new_query_id latency_ms)
      ∧ (∀ e lvl, (query_error_path query_text e lvl insert_error_ok
            new_query_id latency_ms).1.success = false
          ∧ (query_error_path query_text e lvl insert_error_ok
              new_query_id latency_ms).1.error = some e
          ∧ (query_error_path query_text e lvl insert_error_ok
              new_query_id latency_ms).1.latency_ms = latency_ms
          ∧ (insert_error_ok = true →
              ∃ rec, (query_error_path query_text e lvl insert_error_ok
                  new_query_id latency_ms).2 = [rec]
                ∧ rec.response_source = "ERROR" ∧ rec.flag_reason = e))
      ∧ ((query corpus sim user query_text model_name inference retrieve_err
            llm_available llm_result top_k settings_threshold max_context_length
            insert_ok insert_noresults_ok insert_error_ok insert_exc
            new_query_id latency_ms).1.success = false →
          ((query corpus sim user query_text model_name inference retrieve_err
            llm_available llm_result top_k settings_threshold max_context_length
            insert_ok insert_noresults_ok insert_error_ok insert_exc
            new_query_id latency_ms).1.error).isSome = true) := by
  intro corpus sim user query_text model_name inference retrieve_err llm_available
    llm_result top_k settings_threshold max_context_length insert_ok
    insert_noresults_ok insert_error_ok insert_exc new_query_id latency_ms
  refine ⟨?_, ?_, ?_, ?_⟩
  · intro e he
    simp [query, he]
  · intro e v hv he
    subst he
    simp [query, hv]
  · intro e lvl
    refine ⟨rfl, rfl, rfl, ?_⟩
    intro hins
    exact ⟨⟨query_text, 0, [], "Error: ".data ++ e, "ERROR", lvl, true, e⟩,
      by simp [query_error_path, hins], rfl, rfl⟩
  · intro hfail
    rcases he : embed_text inference query_text with e | v
    · simp [query, he, query_error_path]
    · rcases retrieve_err with _ | e
      · by_cases hemp : (retrieve_chunks corpus sim
            (get_user_allowed_security_levels user).1 none settings_threshold top_k).1 = []
        · simp [query, he, hemp] at hfail
        · rcases hio : insert_ok with _ | _
          · simp [query, he, hemp, hio, query_error_path]
          · simp [query, he, hemp, hio] at hfail
      · simp [query, he, query_error_path]

/-- Witness for C4 amended at concrete inputs: an empty query makes the
embedding stage raise; the pipeline returns the structured failure and, with
a succeeding error insert, one ERROR record. -/
theorem query_failure_payload_witness :
    (query [] (fun _ => 0) none [] none (.ok [[1]]) none false (.error [])
        5 1 100 true true true [] 3 7)
      = query_error_path [] "embed_text received an empty string.".data
          SecurityLevel.LOW true 3 7
    ∧ (query_error_path [] "embed failed".data SecurityLevel.LOW true 3 7).1.success
        = false :=
  ⟨(query_failure_payload [] (fun _ => 0) none [] none (.ok [[1]]) none false
      (.error []) 5 1 100 true true true [] 3 7).1
      "embed_text received an empty string.".data rfl,
   ((query_failure_payload [] (fun _ => 0) none [] none (.ok [[1]]) none false
      (.error []) 5 1 100 true true true [] 3 7).2.2.1
      "embed failed".data SecurityLevel.LOW).1⟩

/-! ## C5 — chunker window properties -/

/-- Windows of the empty text are empty at any fuel. -/
lemma chunk_windows_nil (size d : Nat) :
    ∀ fuel, chunk_windows size d fuel [] = [] := by
  intro fuel
  cases fuel <;> rfl

/-- Fuel irrelevance: any fuel at least the text length gives the same
window list (the stride is positive, so each step strictly shortens the
suffix). -/
lemma chunk_windows_fuel (size d : Nat) (hd : 0 < d) :
    ∀ (f₁ : Nat) (l : List Char) (f₂ : Nat), l.length ≤ f₁ → l.length ≤ f₂ →
      chunk_windows size d f₁ l = chunk_windows size d f₂ l := by
  intro f₁
  induction f₁ with
  | zero =>
    intro l f₂ h1 _
    have : l = [] := List.eq_nil_of_length_eq_zero (Nat.le_zero.mp h1)
    subst this
    rw [chunk_windows_nil, chunk_windows_nil]
  | succ f ih =>
    intro l f₂ h1 h2
    cases l with
    | nil => rw [chunk_windows_nil, chunk_windows_nil]
    | cons c t =>
      cases f₂ with
      | zero => simp at h2
      | succ g =>
        simp only [chunk_windows]
        simp only [List.length_cons] at h1 h2
        rw [ih ((c :: t).drop d) g
          (by simp only [List.length_drop, List.length_cons]; omega)
          (by simp only [List.length_drop, List.length_cons]; omega)]

/-- The k-th raw window exists exactly when its start offset `k * stride` is
inside the text, and it is the `size`-character slice at that offset. -/
lemma chunk_windows_getElem (size d : Nat) (hd : 0 < d) :
    ∀ (fuel : Nat) (l : List Char) (k : Nat), l.length ≤ fuel →
      (chunk_windows size d fuel l)[k]? =
        if k * d < l.length then some ((l.drop (k * d)).take size) else none := by
  intro fuel
  induction fuel with
  | zero =>
    intro l k h
    have : l = [] := List.eq_nil_of_length_eq_zero (Nat.le_zero.mp h)
    subst this
    simp [chunk_windows_nil]
  | succ f ih =>
    intro l k h
    cases l with
    | nil => simp [chunk_windows_nil]
    | cons c t =>
      cases k with
      | zero =>
        simp [chunk_windows]
      | succ k =>
        simp only [chunk_windows, List.getElem?_cons_succ]
        simp only [List.length_cons] at h
        rw [ih ((c :: t).drop d) k
          (by simp only [List.length_drop, List.length_cons]; omega)]
        rw [List.drop_drop, Nat.succ_mul]
        have hiff : k * d < ((c :: t).drop d).length ↔ k * d + d < (c :: t).length := by
          simp only [List.length_drop]
          omega
        have harg : d + k * d = k * d + d := Nat.add_comm d (k * d)
        rw [harg]
        by_cases hk : k * d + d < (c :: t).length
        · rw [if_pos (hiff.mpr hk), if_pos hk]
        · rw [if_neg (fun hc => hk (hiff.mp hc)), if_neg hk]

/-- Every raw window is at most `size` characters long. -/
lemma mem_chunk_windows_length_le (size d : Nat) :
    ∀ (fuel : Nat) (l : List Char) (w : List Char),
      w ∈ chunk_windows size d fuel l → w.length ≤ size := by
  intro fuel
  induction fuel with
  | zero =>
    intro l w h
    simp [chunk_windows] at h
  | succ f ih =>
    intro l w h
    cases l with
    | nil => simp [chunk_windows] at h
    | cons c t =>
      simp only [chunk_windows, List.mem_cons] at h
      rcases h with h | h
      · subst h
        simp [List.length_take]
      · exact ih _ w h

/-- Reconstruction: the first raw window followed by every later window with
its first `overlap` characters removed concatenates back to the text. -/
lemma recon_raw_windows (size d overlap : Nat)
    (hs : size = d + overlap) (hd : 0 < d) :
    ∀ (n : Nat) (l : List Char), l.length ≤ n →
      recon overlap (raw_windows size d l) = l := by
  intro n
  induction n with
  | zero =>
    intro l h
    have : l = [] := List.eq_nil_of_length_eq_zero (Nat.le_zero.mp h)
    subst this
    rfl
  | succ n ih =>
    intro l h
    cases l with
    | nil => rfl
    | cons c t =>
      have hunfold : raw_windows size d (c :: t)
          = (c :: t).take size :: chunk_windows size d t.length ((c :: t).drop d) := by
        simp [raw_windows, chunk_windows]
      rcases hrest : (c :: t).drop d with _ | ⟨c', t'⟩
      · -- the whole text fits in the first window
        have hlen : (c :: t).length ≤ d := List.drop_eq_nil_iff.mp hrest
        rw [hunfold, hrest, chunk_windows_nil]
        show (c :: t).take size ++ [] = c :: t
        rw [List.append_nil]
        exact List.take_of_length_le (by omega)
      · -- at least one more window
        have hlen' : ((c :: t).drop d).length ≤ t.length := by
          simp only [List.length_drop, List.length_cons]
          omega
        have hconv : chunk_windows size d t.length ((c :: t).drop d)
            = raw_windows size d ((c :: t).drop d) :=
          chunk_windows_fuel size d hd t.length ((c :: t).drop d)
            ((c :: t).drop d).length hlen' (Nat.le_refl _)
        have hih : recon overlap (raw_windows size d ((c :: t).drop d))
            = (c :: t).drop d := by
          apply ih
          simp only [List.length_drop, List.length_cons]
          simp only [List.length_cons] at h
          omega
        -- expose the head window of the recursive window list
        have hunfold' : raw_windows size d ((c :: t).drop d)
            = ((c :: t).drop d).take size
              :: chunk_windows size d t'.length (((c :: t).drop d).drop d) := by
          rw [hrest]
          simp [raw_windows, chunk_windows]
        -- the tail windows flatten to the text beyond the first window
        have hcancel : ((chunk_windows size d t'.length
              (((c :: t).drop d).drop d)).map (List.drop overlap)).flatten
            = ((c :: t).drop d).drop size := by
          have h1 := hih
          rw [hunfold'] at h1
          simp only [recon, List.map_cons, List.flatten_cons] at h1
          have h2 : ((c :: t).drop d).take size
                ++ ((chunk_windows size d t'.length
                    (((c :: t).drop d).drop d)).map (List.drop overlap)).flatten
              = ((c :: t).drop d).take size ++ ((c :: t).drop d).drop size := by
            rw [h1, List.take_append_drop]
          exact List.append_cancel_left h2
        have e1 : List.drop overlap (((c :: t).drop d).take size)
            = ((c :: t).drop size).take d := by
          rw [List.drop_take]
          congr 1
          · omega
          · rw [List.drop_drop]
            congr 1
            omega
        have e2 : ((c :: t).drop d).drop size = ((c :: t).drop size).drop d := by
          rw [List.drop_drop, List.drop_drop]
          congr 1
          omega
        rw [hunfold, hconv, hunfold']
        simp only [recon, List.map_cons, List.flatten_cons]
        rw [hcancel, e1, e2, List.take_append_drop, List.take_append_drop]

/-- Stripping never lengthens a string. -/
lemma stripChars_length_le (l : List Char) : (stripChars l).length ≤ l.length := by
  have hdw : ∀ (p : Char → Bool) (m : List Char), (m.dropWhile p).length ≤ m.length :=
    fun p m => (List.dropWhile_sublist p).length_le
  calc (stripChars l).length
      = (((l.dropWhile isPyWS).reverse.dropWhile isPyWS)).length := by
        simp [stripChars]
    _ ≤ (l.dropWhile isPyWS).reverse.length := hdw _ _
    _ = (l.dropWhile isPyWS).length := by simp
    _ ≤ l.length := hdw _ _

/-- C5 amended: for every configuration with overlap < size and every text,
(a) every chunk the chunker returns is at most `size` characters;
(b) the raw (pre-strip) windows of the cleaned text reconstruct it exactly —
the first window followed by every later window minus its first `overlap`
characters concatenates to the cleaned text;
(c) adjacent raw windows agree on the overlap region: the k-th window
without its first `size - overlap` characters equals the first `overlap`
characters of window k+1 (the shared region is shorter only at the tail
end);
(d) every raw window is at most `size` characters;
(e) empty or all-whitespace input yields the empty chunk list;
(f) the returned chunks are exactly the raw windows of the cleaned text,
each stripped of edge whitespace, with the windows that are empty after
stripping dropped — so reconstruction and exact overlap hold of the
pre-strip windows, not of the returned chunks themselves. -/
theorem chunker_window_properties :
    ∀ (size overlap : Nat), overlap < size →
    ∀ text : List Char,
      (∀ c ∈ chunk_text ⟨size, overlap⟩ text, c.length ≤ size)
      ∧ recon overlap (raw_windows size (size - overlap) (clean_text text))
          = clean_text text
      ∧ (∀ (k : Nat) (w w' : List Char),
          (raw_windows size (size - overlap) (clean_text text))[k]? = some w →
          (raw_windows size (size - overlap) (clean_text text))[k + 1]? = some w' →
          w.drop (size - overlap) = w'.take overlap)
      ∧ (∀ w ∈ raw_windows size (size - overlap) (clean_text text), w.length ≤ size)
      ∧ (stripChars text = [] → chunk_text ⟨size, overlap⟩ text = [])
      ∧ (stripChars text ≠ [] →
          chunk_text ⟨size, overlap⟩ text
            = ((raw_windows size (size - overlap) (clean_text text)).map
                stripChars).filter (fun c => !c.isEmpty)) := by
  intro size overlap hov text
  have hd : 0 < size - overlap := by omega
  have hs : size = (size - overlap) + overlap := by omega
  refine ⟨?_, ?_, ?_, ?_, ?_, ?_⟩
  · intro c hc
    simp only [chunk_text] at hc
    split at hc
    · simp at hc
    · have h1 := List.mem_of_mem_filter hc
      simp only [List.mem_map] at h1
      obtain ⟨w, hw, hws⟩ := h1
      calc c.length = (stripChars w).length := by rw [hws]
        _ ≤ w.length := stripChars_length_le w
        _ ≤ size := mem_chunk_windows_length_le size (size - overlap) _ _ w hw
  · exact recon_raw_windows size (size - overlap) overlap hs hd
      (clean_text text).length (clean_text text) (Nat.le_refl _)
  · intro k w w' hw hw'
    rw [raw_windows, chunk_windows_getElem size (size - overlap) hd _ _ k
      (Nat.le_refl _)] at hw
    rw [raw_windows, chunk_windows_getElem size (size - overlap) hd _ _ (k + 1)
      (Nat.le_refl _)] at hw'
    split at hw
    · cases hw
      split at hw'
      · cases hw'
        rw [List.drop_take, List.drop_drop, List.take_take]
        congr 1
        · rw [Nat.min_def]
          split <;> omega
        · congr 1
          rw [Nat.succ_mul]
      · exact Option.noConfusion hw'
    · exact Option.noConfusion hw
  · intro w hw
    exact mem_chunk_windows_length_le size (size - overlap) _ _ w hw
  · intro h
    simp [chunk_text, h]
  · intro h
    have hne : text.isEmpty = false := by
      cases text with
      | nil => exact absurd rfl h
      | cons a b => rfl
    have hse : (stripChars text).isEmpty = false := by
      cases hst : stripChars text with
      | nil => exact absurd hst h
      | cons a b => rfl
    simp [chunk_text, hne, hse]

/-- Counterexample to C5 as stated: with size 3 and overlap 1 on the already
normalized text "ab cd", the chunker returns the stripped windows "ab", "cd",
"d"; concatenating consecutive returned windows non-overlapping regions gives
"abd", not the normalized source text, and adjacent returned chunks "ab" and
"cd" share no characters although the configured overlap is 1 — stripping
removed the boundary spaces the raw windows shared. -/
theorem chunker_reconstruction_counterexample :
    clean_text "ab cd".data = "ab cd".data
    ∧ chunk_text ⟨3, 1⟩ "ab cd".data = ["ab".data, "cd".data, "d".data]
    ∧ recon 1 (chunk_text ⟨3, 1⟩ "ab cd".data) = "abd".data
    ∧ recon 1 (chunk_text ⟨3, 1⟩ "ab cd".data) ≠ clean_text "ab cd".data
    ∧ ("ab".data).drop 2 ≠ ("cd".data).take 1 := by
  refine ⟨by decide, by decide, by decide, by decide, by decide⟩

/-- Witness for C5 amended at concrete inputs: chunk length bound and raw
window reconstruction at size 3, overlap 1 on "ab cd". -/
theorem chunker_window_properties_witness :
    ("ab".data).length ≤ 3
    ∧ recon 1 (raw_windows 3 2 (clean_text "ab cd".data)) = clean_text "ab cd".data :=
  ⟨(chunker_window_properties 3 1 (by decide) "ab cd".data).1 "ab".data (by decide),
   (chunker_window_properties 3 1 (by decide) "ab cd".data).2.1⟩

end RagChatbot
